import Mathlib

/-!
Verification of the aligned / large-page memory allocation core of
`src/misc.cpp` (Pikafish).

The C++ code is shallowly embedded as pure Lean functions.  Calls into the
operating system (VirtualAlloc, posix_memalign, madvise, CloseHandle, ...)
are modelled by oracle fields of an explicit environment record, and every
embedded function additionally returns the list of externally visible
actions it performed (an `Event` trace), so that temporal and frame
properties (ordering of OS calls, handle release, privilege restoration,
process termination) can be stated and proved.

Pointers are modelled as `Option Nat` (`none` = the null pointer,
`some a` = a non-null pointer with address `a`).  `size_t` arithmetic is
modelled on `Nat` with explicit reduction modulo `2 ^ 64` where the source
can overflow.
-/

namespace Pikafish.Misc

/-- Externally visible actions of the embedded functions, in program order. -/
inductive Event where
  /-- the `OpenProcessToken` call, with its success flag -/
  | openProcessToken (ok : Bool)
  /-- the `LookupPrivilegeValueA` call, with its success flag -/
  | lookupPrivilegeValue (ok : Bool)
  /-- the enabling `AdjustTokenPrivileges` call; `ok` means the call
      returned nonzero and `GetLastError () == ERROR_SUCCESS` -/
  | adjustPrivileges (ok : Bool)
  /-- `VirtualAlloc` with `MEM_LARGE_PAGES`, the requested byte count -/
  | virtualAllocLarge (size : Nat)
  /-- the second `AdjustTokenPrivileges` call, restoring the saved state -/
  | restorePrivileges
  /-- `CloseHandle` on the process token -/
  | closeHandle
  /-- `VirtualAlloc` without `MEM_LARGE_PAGES`, the requested byte count -/
  | virtualAllocRegular (size : Nat)
  /-- the platform aligned-allocation primitive, with its two arguments -/
  | osAlignedAlloc (alignment size : Nat)
  /-- `madvise (mem, size, MADV_HUGEPAGE)` -/
  | madvise (size : Nat)
  /-- `VirtualFree (addr, 0, MEM_RELEASE)`, with its success flag -/
  | virtualFreeCall (addr : Nat) (ok : Bool)
  /-- the platform release primitive (`free` / `_mm_free` / `_aligned_free`) -/
  | osFreeCall (ptr : Option Nat)
  /-- one line written to the diagnostic sink (`std::cerr ... << std::endl`) -/
  | diagnosticLine
  /-- `exit (code)` -/
  | exitCall (code : Nat)
deriving DecidableEq, Repr

/-- Exit codes occurring in a trace; the process terminated iff nonempty. -/
def exitCodes (es : List Event) : List Nat :=
  es.filterMap fun e =>
    match e with
    | Event.exitCall c => some c
    | _ => none

/-- Number of diagnostic lines emitted in a trace. -/
def diagCount (es : List Event) : Nat :=
  es.countP fun e => e == Event.diagnosticLine

/-- Addresses actually released in a trace: a successful `VirtualFree`, or a
platform release primitive applied to a non-null pointer (`free (NULL)` and
its Windows counterparts release nothing, per their documented contracts). -/
def releasedAddrs : List Event → List Nat
  | [] => []
  | Event.osFreeCall (some m) :: es => m :: releasedAddrs es
  | Event.virtualFreeCall m true :: es => m :: releasedAddrs es
  | _ :: es => releasedAddrs es

/-- True when the trace contains no `madvise` call. -/
def noMadvise (es : List Event) : Bool :=
  es.all fun e =>
    match e with
    | Event.madvise _ => false
    | _ => true

/-- `a` occurs strictly before `b` in `l`. -/
def appearsBefore (a b : Event) (l : List Event) : Prop :=
  ∃ i j : Nat, i < j ∧ l[i]? = some a ∧ l[j]? = some b

/-- Environment of the Windows build: results of the OS calls the code
makes.  Boolean fields record whether the corresponding call succeeds;
allocation oracles map a requested size to the returned pointer. -/
structure WinOS where
  /-- result of `GetLargePageMinimum ()`; `0` means no large-page support -/
  largePageMinimum : Nat
  /-- `GetProcAddress (hAdvapi32, "OpenProcessToken")` found the symbol
      (false also covers advapi32.dll itself being unavailable) -/
  hasOpenProcessToken : Bool
  /-- `GetProcAddress` found `LookupPrivilegeValueA` -/
  hasLookupPrivilegeValue : Bool
  /-- `GetProcAddress` found `AdjustTokenPrivileges` -/
  hasAdjustTokenPrivileges : Bool
  /-- the `OpenProcessToken` call succeeds -/
  openProcessTokenOk : Bool
  /-- the `LookupPrivilegeValueA` call succeeds -/
  lookupPrivilegeValueOk : Bool
  /-- the enabling `AdjustTokenPrivileges` call returns nonzero -/
  adjustTokenPrivilegesOk : Bool
  /-- `GetLastError () == ERROR_SUCCESS` after that call -/
  lastErrorIsSuccess : Bool
  /-- `VirtualAlloc (nullptr, size, MEM_RESERVE | MEM_COMMIT | MEM_LARGE_PAGES,
      PAGE_READWRITE)` -/
  virtualAllocLarge : Nat → Option Nat
  /-- `VirtualAlloc (nullptr, size, MEM_RESERVE | MEM_COMMIT, PAGE_READWRITE)` -/
  virtualAlloc : Nat → Option Nat
  /-- `VirtualFree (addr, 0, MEM_RELEASE)` succeeds -/
  virtualFreeOk : Nat → Bool

/-- `size_t` wraps modulo `2 ^ 64` (the 64-bit Windows build). -/
def SIZE_T_MOD : Nat := 2 ^ 64

/-- The rounding in the source, on `size_t`:
`allocSize = (allocSize + largePageSize - 1) & ~size_t (largePageSize - 1)`.
The complement of `largePageSize - 1` within 64 bits is
`(2 ^ 64 - 1) - (largePageSize - 1)`. -/
def winRoundUp (largePageSize allocSize : Nat) : Nat :=
  ((allocSize + largePageSize - 1) % SIZE_T_MOD) &&&
    ((SIZE_T_MOD - 1) - (largePageSize - 1))

/-- Embedding of the `_WIN64` body of `aligned_large_pages_alloc_windows`
(src/misc.cpp): query `GetLargePageMinimum`, resolve the three advapi32
entry points, open the process token, look up and enable
`SeLockMemoryPrivilege`, and only then `VirtualAlloc` with
`MEM_LARGE_PAGES`; the saved privilege state is restored and the token
handle closed before returning.  Returns the resulting pointer and the
trace of OS actions. -/
def aligned_large_pages_alloc_windows64 (os : WinOS) (allocSize : Nat) :
    Option Nat × List Event :=
  if os.largePageMinimum = 0 then (none, [])
  else if os.hasOpenProcessToken = false then (none, [])
  else if os.hasLookupPrivilegeValue = false then (none, [])
  else if os.hasAdjustTokenPrivileges = false then (none, [])
  else if os.openProcessTokenOk = false then (none, [Event.openProcessToken false])
  else if os.lookupPrivilegeValueOk = false then
    (none, [Event.openProcessToken true, Event.lookupPrivilegeValue false,
            Event.closeHandle])
  else if os.adjustTokenPrivilegesOk && os.lastErrorIsSuccess then
    (os.virtualAllocLarge (winRoundUp os.largePageMinimum allocSize),
     [Event.openProcessToken true, Event.lookupPrivilegeValue true,
      Event.adjustPrivileges true,
      Event.virtualAllocLarge (winRoundUp os.largePageMinimum allocSize),
      Event.restorePrivileges, Event.closeHandle])
  else
    (none, [Event.openProcessToken true, Event.lookupPrivilegeValue true,
            Event.adjustPrivileges false, Event.closeHandle])

/-- `aligned_large_pages_alloc_windows`: on builds without `_WIN64` the body
is `return nullptr;`, otherwise it is the 64-bit body above. -/
def aligned_large_pages_alloc_windows (is64 : Bool) (os : WinOS)
    (allocSize : Nat) : Option Nat × List Event :=
  if is64 then aligned_large_pages_alloc_windows64 os allocSize else (none, [])

/-- The `_WIN32` variant of `aligned_large_pages_alloc`: try the large-page
helper, then `if (!mem) mem = VirtualAlloc (nullptr, allocSize,
MEM_RESERVE | MEM_COMMIT, PAGE_READWRITE);`. -/
def aligned_large_pages_alloc_win (is64 : Bool) (os : WinOS)
    (allocSize : Nat) : Option Nat × List Event :=
  match aligned_large_pages_alloc_windows is64 os allocSize with
  | (some m, evs) => (some m, evs)
  | (none, evs) => (os.virtualAlloc allocSize,
                    evs ++ [Event.virtualAllocRegular allocSize])

/-- The `_WIN32` variant of `aligned_large_pages_free`:
`if (mem && !VirtualFree (mem, 0, MEM_RELEASE)) { cerr << ...; exit
(EXIT_FAILURE); }`.  `EXIT_FAILURE` is `1`. -/
def aligned_large_pages_free_win (os : WinOS) (mem : Option Nat) :
    List Event :=
  match mem with
  | none => []
  | some m =>
    if os.virtualFreeOk m then [Event.virtualFreeCall m true]
    else [Event.virtualFreeCall m false, Event.diagnosticLine,
          Event.exitCall 1]

/-- The four platform backends `std_aligned_alloc` / `std_aligned_free` can
be compiled against, in the order of the `#if` chain in the source. -/
inductive AlignedBackend where
  /-- `POSIXALIGNEDALLOC`: `posix_memalign` / `free` -/
  | posixMemalign
  /-- `_WIN32` without `_M_ARM` / `_M_ARM64`: `_mm_malloc` / `_mm_free` -/
  | mmMalloc
  /-- other `_WIN32`: `_aligned_malloc` / `_aligned_free` -/
  | alignedMalloc
  /-- default: `std::aligned_alloc` / `free` -/
  | cppAlignedAlloc
deriving DecidableEq, Repr

/-- Environment of the portable build: the aligned-allocation primitives.
Each maps its two arguments, in the argument order of the C prototype, to
the returned pointer (`none` = failure / null). -/
structure AlignedOS where
  /-- `posix_memalign (&mem, alignment, size)`: `none` models a nonzero
      return code, `some m` models return `0` with `mem = m` -/
  posix_memalign : Nat → Nat → Option Nat
  /-- `_mm_malloc (size, alignment)` -/
  mm_malloc : Nat → Nat → Option Nat
  /-- `_aligned_malloc (size, alignment)` -/
  aligned_malloc : Nat → Nat → Option Nat
  /-- `std::aligned_alloc (alignment, size)` -/
  cpp_aligned_alloc : Nat → Nat → Option Nat

/-- Embedding of `std_aligned_alloc (alignment, size)`: dispatch to the
backend compiled in, preserving the argument order of each backend. -/
def std_aligned_alloc (b : AlignedBackend) (os : AlignedOS)
    (alignment size : Nat) : Option Nat × List Event :=
  (match b with
   | AlignedBackend.posixMemalign => os.posix_memalign alignment size
   | AlignedBackend.mmMalloc => os.mm_malloc size alignment
   | AlignedBackend.alignedMalloc => os.aligned_malloc size alignment
   | AlignedBackend.cppAlignedAlloc => os.cpp_aligned_alloc alignment size,
   [Event.osAlignedAlloc alignment size])

/-- Embedding of `std_aligned_free (ptr)`: every backend passes `ptr`
through to its release primitive (`free` / `_mm_free` / `_aligned_free`),
each of which is documented as a no-op on a null argument. -/
def std_aligned_free (b : AlignedBackend) (ptr : Option Nat) : List Event :=
  match b with
  | AlignedBackend.posixMemalign => [Event.osFreeCall ptr]
  | AlignedBackend.mmMalloc => [Event.osFreeCall ptr]
  | AlignedBackend.alignedMalloc => [Event.osFreeCall ptr]
  | AlignedBackend.cppAlignedAlloc => [Event.osFreeCall ptr]

/-- The alignment constant of the non-Windows `aligned_large_pages_alloc`:
`2 * 1024 * 1024` under `__linux__`, else `4096`. -/
def unixAlignment (isLinux : Bool) : Nat :=
  if isLinux then 2 * 1024 * 1024 else 4096

/-- The rounded size of the non-Windows path, on `size_t`:
`size = ((allocSize + alignment - 1) / alignment) * alignment`.
The sum wraps modulo `2 ^ 64`; the subsequent quotient times `alignment`
never exceeds the wrapped sum, so it cannot wrap again. -/
def unixRoundedSize (isLinux : Bool) (allocSize : Nat) : Nat :=
  (((allocSize + unixAlignment isLinux - 1) % SIZE_T_MOD) /
      unixAlignment isLinux) *
    unixAlignment isLinux

/-- The non-`_WIN32` variant of `aligned_large_pages_alloc`: round the size
up to a multiple of the platform alignment, allocate with
`std_aligned_alloc`, and, when `MADV_HUGEPAGE` is defined, advise the OS
with `madvise (mem, size, MADV_HUGEPAGE)` (called whether or not the
allocation succeeded). -/
def aligned_large_pages_alloc_unix (isLinux hasMadvHugepage : Bool)
    (b : AlignedBackend) (os : AlignedOS) (allocSize : Nat) :
    Option Nat × List Event :=
  ((std_aligned_alloc b os (unixAlignment isLinux)
      (unixRoundedSize isLinux allocSize)).1,
   (std_aligned_alloc b os (unixAlignment isLinux)
      (unixRoundedSize isLinux allocSize)).2 ++
     if hasMadvHugepage then [Event.madvise (unixRoundedSize isLinux allocSize)]
     else [])

/-- The non-`_WIN32` variant of `aligned_large_pages_free`: delegate to
`std_aligned_free`. -/
def aligned_large_pages_free_unix (b : AlignedBackend) (mem : Option Nat) :
    List Event :=
  std_aligned_free b mem

/-- Semantics of the privilege-changing events on the process privilege
state: the state is the current enabled flag of `SeLockMemoryPrivilege`
together with the previous state saved by a successful enabling
`AdjustTokenPrivileges` call (`prevTp` in the source); `restorePrivileges`
reinstates the saved state. -/
def privStep : Bool × Option Bool → Event → Bool × Option Bool
  | (cur, _), Event.adjustPrivileges true => (true, some cur)
  | (cur, saved), Event.restorePrivileges => (saved.getD cur, saved)
  | st, _ => st

/-- The privilege flag after running a trace from initial state `p0` with
nothing saved. -/
def privFinal (p0 : Bool) (es : List Event) : Bool :=
  (es.foldl privStep (p0, Option.none)).1

/-- The alignment contract each platform allocation primitive documents:
any non-null result is aligned to the requested alignment (argument order
as in each C prototype). -/
def alignedOSContract (os : AlignedOS) : Prop :=
  (∀ a s m, os.posix_memalign a s = some m → m % a = 0) ∧
  (∀ s a m, os.mm_malloc s a = some m → m % a = 0) ∧
  (∀ s a m, os.aligned_malloc s a = some m → m % a = 0) ∧
  (∀ a s m, os.cpp_aligned_alloc a s = some m → m % a = 0)

/-- A concrete Windows environment on which every OS call succeeds:
2 MiB large pages, all advapi32 entry points present, privilege
negotiation succeeds, both allocators return memory. -/
def winOSok : WinOS where
  largePageMinimum := 2 ^ 21
  hasOpenProcessToken := true
  hasLookupPrivilegeValue := true
  hasAdjustTokenPrivileges := true
  openProcessTokenOk := true
  lookupPrivilegeValueOk := true
  adjustTokenPrivilegesOk := true
  lastErrorIsSuccess := true
  virtualAllocLarge := fun _ => some 2097152
  virtualAlloc := fun _ => some 4096
  virtualFreeOk := fun _ => true

/-- Like `winOSok` but `VirtualFree` fails. -/
def winOSfreeFail : WinOS :=
  { winOSok with virtualFreeOk := fun _ => false }

/-- Like `winOSok` but `OpenProcessToken` fails, so privilege negotiation
fails and the large-page path is abandoned. -/
def winOSnoToken : WinOS :=
  { winOSok with openProcessTokenOk := false }

/-- Like `winOSok` but the large-page `VirtualAlloc` itself returns null,
so the allocation falls back after a fully successful negotiation. -/
def winOSlargeAllocFails : WinOS :=
  { winOSok with virtualAllocLarge := fun _ => none }

/-- A concrete portable environment whose primitives always return the
(trivially aligned) address 0. -/
def alignedOSzero : AlignedOS where
  posix_memalign := fun _ _ => some 0
  mm_malloc := fun _ _ => some 0
  aligned_malloc := fun _ _ => some 0
  cpp_aligned_alloc := fun _ _ => some 0

/-! Arithmetic facts about the two rounding formulas. -/

/-- Masking a number below `2 ^ n` with `2 ^ n - 2 ^ k` clears its `k` low
bits: the result is the largest multiple of `2 ^ k` not exceeding it. -/
theorem land_high_bits {x k n : Nat} (hk : k ≤ n) (hx : x < 2 ^ n) :
    x &&& (2 ^ n - 2 ^ k) = x / 2 ^ k * 2 ^ k := by
  have hpow : 2 ^ (n - k) * 2 ^ k = 2 ^ n := by
    rw [← pow_add]
    congr 1
    omega
  have h1 : 2 ^ n - 2 ^ k = (2 ^ (n - k) - 1) <<< k := by
    rw [Nat.shiftLeft_eq, Nat.sub_mul, one_mul, hpow]
  have h2 : x / 2 ^ k * 2 ^ k = (x >>> k) <<< k := by
    rw [Nat.shiftRight_eq_div_pow, Nat.shiftLeft_eq]
  rw [h1, h2]
  apply Nat.eq_of_testBit_eq
  intro i
  rw [Nat.testBit_and, Nat.testBit_shiftLeft, Nat.testBit_shiftLeft,
    Nat.testBit_shiftRight, Nat.testBit_two_pow_sub_one]
  by_cases hik : k ≤ i
  · have hki : k + (i - k) = i := by omega
    by_cases hin : i < n
    · have hd : i - k < n - k := by omega
      simp [hik, hd, hki, Bool.and_comm]
    · have hi : x < 2 ^ i :=
        lt_of_lt_of_le hx (Nat.pow_le_pow_right (by norm_num) (by omega))
      have hxf : x.testBit i = false := Nat.testBit_lt_two_pow hi
      have hd : ¬(i - k < n - k) := by omega
      simp [hik, hd, hki, hxf]
  · simp [hik]

/-- On inputs that do not overflow `size_t`, the bitmask rounding of the
Windows large-page path produces `((s + L - 1) / L) * L` for the
power-of-two page size `L = 2 ^ k`. -/
theorem winRoundUp_eq_ceil {k : Nat} (s : Nat) (hk : k ≤ 64)
    (hs : s + 2 ^ k ≤ 2 ^ 64) :
    winRoundUp (2 ^ k) s = (s + 2 ^ k - 1) / 2 ^ k * 2 ^ k := by
  have h0 : 0 < 2 ^ k := pow_pos (by norm_num) k
  have h64 : (0:Nat) < 2 ^ 64 := by norm_num
  have hlt : s + 2 ^ k - 1 < 2 ^ 64 := by omega
  unfold winRoundUp SIZE_T_MOD
  rw [Nat.mod_eq_of_lt hlt]
  have hmask : 2 ^ 64 - 1 - (2 ^ k - 1) = 2 ^ 64 - 2 ^ k := by omega
  rw [hmask, land_high_bits hk hlt]

/-- The rounded size is never smaller than the request. -/
theorem le_ceil_mul {a : Nat} (s : Nat) (ha : 0 < a) :
    s ≤ (s + a - 1) / a * a := by
  have h1 := Nat.div_add_mod (s + a - 1) a
  have h2 : (s + a - 1) % a < a := Nat.mod_lt _ ha
  have h3 : (s + a - 1) / a * a = a * ((s + a - 1) / a) := Nat.mul_comm _ _
  omega

/-! The claims. -/

/-- C1: on the Windows build, `aligned_large_pages_alloc` returns null
exactly when both the large-page helper and the regular fallback
`VirtualAlloc` fail; in particular, whenever the fallback allocation
succeeds the result is non-null, even when large-page support is
unavailable (including 32-bit builds) or privilege negotiation fails. -/
theorem alloc_null_iff_both_paths_fail (is64 : Bool) (os : WinOS) (s : Nat) :
    (aligned_large_pages_alloc_win is64 os s).1 = none ↔
      (aligned_large_pages_alloc_windows is64 os s).1 = none ∧
        os.virtualAlloc s = none := by
  unfold aligned_large_pages_alloc_win
  cases h : aligned_large_pages_alloc_windows is64 os s with
  | mk mem evs => cases mem <;> simp [h]

/-- C2: on the Windows build, if `VirtualFree` fails on a non-null
pointer, `aligned_large_pages_free` emits exactly one diagnostic line and
terminates the process with the non-zero status `EXIT_FAILURE = 1`; the
non-Windows `aligned_large_pages_free`, which delegates to
`std_aligned_free`, never emits a diagnostic or terminates the process,
for any backend and any input. -/
theorem release_failure_is_fatal (os : WinOS) (m : Nat) (b : AlignedBackend)
    (p : Option Nat) (hfail : os.virtualFreeOk m = false) :
    diagCount (aligned_large_pages_free_win os (some m)) = 1 ∧
    exitCodes (aligned_large_pages_free_win os (some m)) = [1] ∧
    exitCodes (aligned_large_pages_free_unix b p) = [] ∧
    diagCount (aligned_large_pages_free_unix b p) = 0 := by
  unfold aligned_large_pages_free_win
  dsimp only
  rw [hfail]
  refine ⟨rfl, rfl, ?_, ?_⟩ <;> cases b <;> rfl

/-- C2 witness: a concrete failing release terminates with status 1 after
one diagnostic line, and a concrete regular-path release does nothing of
the kind. -/
theorem release_failure_is_fatal_witness :
    diagCount (aligned_large_pages_free_win winOSfreeFail (some 7)) = 1 ∧
    exitCodes (aligned_large_pages_free_win winOSfreeFail (some 7)) = [1] ∧
    exitCodes (aligned_large_pages_free_unix AlignedBackend.posixMemalign
      (some 3)) = [] ∧
    diagCount (aligned_large_pages_free_unix AlignedBackend.posixMemalign
      (some 3)) = 0 :=
  release_failure_is_fatal winOSfreeFail 7 AlignedBackend.posixMemalign
    (some 3) rfl

/-- C8: passing a null pointer to `std_aligned_free` or to either variant
of `aligned_large_pages_free` is a no-op on every backend: no address is
released, no diagnostic is emitted, and the process does not terminate. -/
theorem null_free_is_noop (b : AlignedBackend) (os : WinOS) :
    releasedAddrs (std_aligned_free b none) = [] ∧
    diagCount (std_aligned_free b none) = 0 ∧
    exitCodes (std_aligned_free b none) = [] ∧
    aligned_large_pages_free_win os none = [] ∧
    releasedAddrs (aligned_large_pages_free_unix b none) = [] ∧
    diagCount (aligned_large_pages_free_unix b none) = 0 ∧
    exitCodes (aligned_large_pages_free_unix b none) = [] := by
  cases b <;> exact ⟨rfl, rfl, rfl, rfl, rfl, rfl, rfl⟩

/-- C5: the Windows 64-bit large-page helper returns null on every failure
mode — no large-page support (`GetLargePageMinimum` returning 0), any of
the three advapi32 entry points missing, `OpenProcessToken` failure,
privilege lookup failure, the `AdjustTokenPrivileges` call failing, or
`GetLastError` reporting the adjustment did not take effect — and on no
input does it terminate the process or emit a diagnostic. -/
theorem negotiation_failure_is_soft (os os2 : WinOS) (s s2 : Nat)
    (hfail : os.largePageMinimum = 0 ∨ os.hasOpenProcessToken = false ∨
      os.hasLookupPrivilegeValue = false ∨
      os.hasAdjustTokenPrivileges = false ∨
      os.openProcessTokenOk = false ∨ os.lookupPrivilegeValueOk = false ∨
      os.adjustTokenPrivilegesOk = false ∨ os.lastErrorIsSuccess = false) :
    (aligned_large_pages_alloc_windows64 os s).1 = none ∧
    exitCodes (aligned_large_pages_alloc_windows64 os2 s2).2 = [] ∧
    diagCount (aligned_large_pages_alloc_windows64 os2 s2).2 = 0 := by
  refine ⟨?_, ?_, ?_⟩
  · unfold aligned_large_pages_alloc_windows64
    split_ifs with h1 h2 h3 h4 h5 h6 h7
    all_goals first
      | rfl
      | (exfalso; rcases hfail with h | h | h | h | h | h | h | h <;> simp_all)
  · unfold aligned_large_pages_alloc_windows64
    split_ifs <;> rfl
  · unfold aligned_large_pages_alloc_windows64
    split_ifs <;> rfl

/-- C5 witness: with large-page support absent the helper yields null, and
a fully successful run still neither exits nor prints. -/
theorem negotiation_failure_is_soft_witness :
    (aligned_large_pages_alloc_windows64
      { winOSok with largePageMinimum := 0 } 5).1 = none ∧
    exitCodes (aligned_large_pages_alloc_windows64 winOSok 5).2 = [] ∧
    diagCount (aligned_large_pages_alloc_windows64 winOSok 5).2 = 0 :=
  negotiation_failure_is_soft { winOSok with largePageMinimum := 0 } winOSok
    5 5 (Or.inl rfl)

/-- C6: the large-page `VirtualAlloc` call occurs in a run of the Windows
64-bit helper only when the enabling `AdjustTokenPrivileges` call
succeeded and `GetLastError` confirmed the privilege took effect, and in
the trace it occurs strictly after that successful privilege
adjustment. -/
theorem large_alloc_only_after_privilege (os : WinOS) (s sz : Nat)
    (hmem : Event.virtualAllocLarge sz ∈
      (aligned_large_pages_alloc_windows64 os s).2) :
    os.adjustTokenPrivilegesOk = true ∧ os.lastErrorIsSuccess = true ∧
    appearsBefore (Event.adjustPrivileges true) (Event.virtualAllocLarge sz)
      (aligned_large_pages_alloc_windows64 os s).2 := by
  unfold aligned_large_pages_alloc_windows64 at hmem ⊢
  split_ifs at hmem ⊢ with h1 h2 h3 h4 h5 h6 h7
  all_goals simp only [List.mem_cons, List.not_mem_nil, or_false] at hmem
  all_goals try simp_all
  exact ⟨2, 3, by omega, rfl, rfl⟩

/-- C6 witness: in a concrete fully successful run the large-page
allocation call is present and provably preceded by the successful
privilege adjustment. -/
theorem large_alloc_only_after_privilege_witness :
    winOSok.adjustTokenPrivilegesOk = true ∧
    winOSok.lastErrorIsSuccess = true ∧
    appearsBefore (Event.adjustPrivileges true)
      (Event.virtualAllocLarge 2097152)
      (aligned_large_pages_alloc_windows64 winOSok 5).2 :=
  large_alloc_only_after_privilege winOSok 5 2097152 (by decide)

/-- C7: in every run of the Windows 64-bit helper in which
`OpenProcessToken` succeeded, `CloseHandle` is called before returning,
whatever happens afterwards. -/
theorem token_handle_always_closed (os : WinOS) (s : Nat)
    (hopen : Event.openProcessToken true ∈
      (aligned_large_pages_alloc_windows64 os s).2) :
    Event.closeHandle ∈ (aligned_large_pages_alloc_windows64 os s).2 := by
  unfold aligned_large_pages_alloc_windows64 at hopen ⊢
  split_ifs at hopen ⊢ <;> simp_all

/-- C7 witness: a concrete run that opens the token also closes it. -/
theorem token_handle_always_closed_witness :
    Event.closeHandle ∈ (aligned_large_pages_alloc_windows64 winOSok 5).2 :=
  token_handle_always_closed winOSok 5 (by decide)

/-- C10: running the privilege semantics over any trace of the Windows
64-bit helper returns the privilege flag to its initial value — whenever
the enabling adjustment succeeded, the saved previous state is restored
before returning, whether or not the large-page `VirtualAlloc`
succeeded — so the helper leaves the process privilege set net-unchanged. -/
theorem privilege_state_net_unchanged (os : WinOS) (s : Nat) (p0 : Bool) :
    privFinal p0 (aligned_large_pages_alloc_windows64 os s).2 = p0 ∧
    (Event.adjustPrivileges true ∈
        (aligned_large_pages_alloc_windows64 os s).2 →
      Event.restorePrivileges ∈
        (aligned_large_pages_alloc_windows64 os s).2) := by
  unfold aligned_large_pages_alloc_windows64
  split_ifs <;> exact ⟨rfl, by intro h; simp_all⟩

/-- C10 witness: a concrete successful enabling run restores the
privilege state, here from initial state `false` back to `false`. -/
theorem privilege_state_net_unchanged_witness :
    privFinal false (aligned_large_pages_alloc_windows64 winOSok 5).2 =
      false ∧
    Event.restorePrivileges ∈
      (aligned_large_pages_alloc_windows64 winOSok 5).2 :=
  ⟨(privilege_state_net_unchanged winOSok 5 false).1,
   (privilege_state_net_unchanged winOSok 5 false).2 (by decide)⟩

/-- C3: for every power-of-two alignment that is a multiple of the pointer
size, and whichever platform backend is compiled in, `std_aligned_alloc`
returns either null or a pointer aligned to the requested alignment
(assuming each OS primitive honours its documented alignment contract),
and it never terminates the process or emits a diagnostic. -/
theorem aligned_alloc_backend_contract (b : AlignedBackend) (os : AlignedOS)
    (alignment size : Nat) (hos : alignedOSContract os)
    (_hpow : ∃ k, alignment = 2 ^ k) (_hptr : 8 ∣ alignment) :
    ((std_aligned_alloc b os alignment size).1 = none ∨
      ∃ m, (std_aligned_alloc b os alignment size).1 = some m ∧
        m % alignment = 0) ∧
    exitCodes (std_aligned_alloc b os alignment size).2 = [] ∧
    diagCount (std_aligned_alloc b os alignment size).2 = 0 := by
  obtain ⟨h1, h2, h3, h4⟩ := hos
  refine ⟨?_, ?_, ?_⟩
  · cases b
    case posixMemalign =>
      cases h : os.posix_memalign alignment size with
      | none => exact Or.inl (by simp [std_aligned_alloc, h])
      | some m =>
        exact Or.inr ⟨m, by simp [std_aligned_alloc, h], h1 _ _ _ h⟩
    case mmMalloc =>
      cases h : os.mm_malloc size alignment with
      | none => exact Or.inl (by simp [std_aligned_alloc, h])
      | some m =>
        exact Or.inr ⟨m, by simp [std_aligned_alloc, h], h2 _ _ _ h⟩
    case alignedMalloc =>
      cases h : os.aligned_malloc size alignment with
      | none => exact Or.inl (by simp [std_aligned_alloc, h])
      | some m =>
        exact Or.inr ⟨m, by simp [std_aligned_alloc, h], h3 _ _ _ h⟩
    case cppAlignedAlloc =>
      cases h : os.cpp_aligned_alloc alignment size with
      | none => exact Or.inl (by simp [std_aligned_alloc, h])
      | some m =>
        exact Or.inr ⟨m, by simp [std_aligned_alloc, h], h4 _ _ _ h⟩
  · cases b <;> rfl
  · cases b <;> rfl

/-- C3 witness: a concrete conforming environment, queried through the
POSIX backend at alignment 8, yields an aligned pointer without exiting. -/
theorem aligned_alloc_backend_contract_witness :
    ((std_aligned_alloc AlignedBackend.posixMemalign alignedOSzero 8 1).1 =
        none ∨
      ∃ m, (std_aligned_alloc AlignedBackend.posixMemalign alignedOSzero 8
          1).1 = some m ∧ m % 8 = 0) ∧
    exitCodes (std_aligned_alloc AlignedBackend.posixMemalign alignedOSzero
      8 1).2 = [] ∧
    diagCount (std_aligned_alloc AlignedBackend.posixMemalign alignedOSzero
      8 1).2 = 0 :=
  aligned_alloc_backend_contract AlignedBackend.posixMemalign alignedOSzero
    8 1
    ⟨fun a _ m h => by injection h with h; simp [← h],
     fun _ a m h => by injection h with h; simp [← h],
     fun _ a m h => by injection h with h; simp [← h],
     fun a _ m h => by injection h with h; simp [← h]⟩
    ⟨3, rfl⟩ ⟨1, rfl⟩

/-- C9: the fallback behaviors are asymmetric by platform.  On Windows
builds lacking 64-bit support the large-page helper always yields null, so
the allocation is whatever the regular `VirtualAlloc` returns and no
huge-page advisory is issued; on non-Windows platforms the (single,
fallback) path is a regular aligned allocation followed by a
`madvise MADV_HUGEPAGE` hint exactly when the OS exposes one. -/
theorem fallback_asymmetry_by_platform (os : WinOS) (s : Nat)
    (isLinux : Bool) (b : AlignedBackend) (uos : AlignedOS) :
    ((aligned_large_pages_alloc_windows false os s).1 = none ∧
      (aligned_large_pages_alloc_win false os s).1 = os.virtualAlloc s ∧
      noMadvise (aligned_large_pages_alloc_win false os s).2 = true) ∧
    ((aligned_large_pages_alloc_unix isLinux true b uos s).2 =
        [Event.osAlignedAlloc (unixAlignment isLinux)
          (unixRoundedSize isLinux s),
         Event.madvise (unixRoundedSize isLinux s)] ∧
      noMadvise (aligned_large_pages_alloc_unix isLinux false b uos s).2 =
        true) := by
  exact ⟨⟨rfl, rfl, rfl⟩, rfl, rfl⟩

/-- C4 counterexample: with 2 MiB large pages but a failing privilege
negotiation, requesting 1 byte makes the Windows build issue a regular
fallback `VirtualAlloc` sized to the requested 1 byte — not to the rounded
size 2097152 the claim prescribes, which is requested from no allocation
call at all. -/
theorem rounded_size_counterexample :
    (aligned_large_pages_alloc_win true winOSnoToken 1).2 =
      [Event.openProcessToken false, Event.virtualAllocRegular 1] ∧
    winRoundUp winOSnoToken.largePageMinimum 1 = 2097152 ∧
    decide (Event.virtualAllocRegular 2097152 ∈
      (aligned_large_pages_alloc_win true winOSnoToken 1).2) = false := by
  decide

/-- C4 amended: on non-Windows platforms `aligned_large_pages_alloc`
computes the allocation size with the `size_t` formula
`((s + granularity - 1) mod 2 ^ 64) / granularity * granularity`
(granularity 2 MiB on Linux, 4096 elsewhere) and passes it to the single
(fallback) aligned allocation; whenever `s + granularity ≤ 2 ^ 64` — so
the sum does not wrap — that size equals `ceil (s / granularity) *
granularity` and is at least `s`.  On Windows only the large-page path
rounds the size — to `ceil (s / L) * L` for the large-page minimum
`L = 2 ^ k` when `s + L ≤ 2 ^ 64`, again at least `s` — while the regular
fallback `VirtualAlloc` is sized to the requested `s` itself. -/
theorem rounded_size_per_platform (isLinux hasMadvHugepage : Bool)
    (b : AlignedBackend) (uos : AlignedOS) (os : WinOS) (is64 : Bool)
    (s sz k : Nat) (hL : os.largePageMinimum = 2 ^ k) (hk : k ≤ 64)
    (hs : s + 2 ^ k ≤ 2 ^ 64)
    (hsu : s + unixAlignment isLinux ≤ 2 ^ 64)
    (hmem : Event.virtualAllocLarge sz ∈
      (aligned_large_pages_alloc_windows64 os s).2)
    (hfb : (aligned_large_pages_alloc_windows is64 os s).1 = none) :
    (Event.osAlignedAlloc (unixAlignment isLinux) (unixRoundedSize isLinux s)
        ∈ (aligned_large_pages_alloc_unix isLinux hasMadvHugepage b uos s).2 ∧
      unixRoundedSize isLinux s =
        (s + unixAlignment isLinux - 1) / unixAlignment isLinux *
          unixAlignment isLinux ∧
      s ≤ unixRoundedSize isLinux s) ∧
    (sz = (s + 2 ^ k - 1) / 2 ^ k * 2 ^ k ∧ s ≤ sz) ∧
    Event.virtualAllocRegular s ∈
      (aligned_large_pages_alloc_win is64 os s).2 := by
  have ha : 0 < unixAlignment isLinux := by
    cases isLinux <;> norm_num [unixAlignment]
  have hur : unixRoundedSize isLinux s =
      (s + unixAlignment isLinux - 1) / unixAlignment isLinux *
        unixAlignment isLinux := by
    unfold unixRoundedSize SIZE_T_MOD
    rw [Nat.mod_eq_of_lt (by omega)]
  have hsz : sz = (s + 2 ^ k - 1) / 2 ^ k * 2 ^ k := by
    unfold aligned_large_pages_alloc_windows64 at hmem
    split_ifs at hmem <;> simp at hmem
    rw [hmem, hL]
    exact winRoundUp_eq_ceil s hk hs
  refine ⟨⟨?_, hur, ?_⟩, ⟨hsz, ?_⟩, ?_⟩
  · cases b <;> simp [aligned_large_pages_alloc_unix, std_aligned_alloc]
  · rw [hur]
    exact le_ceil_mul s ha
  · rw [hsz]
    exact le_ceil_mul s (pow_pos (by norm_num) k)
  · unfold aligned_large_pages_alloc_win
    cases hh : aligned_large_pages_alloc_windows is64 os s with
    | mk mem evs =>
      rw [hh] at hfb
      cases mem with
      | none => simp
      | some m => simp at hfb

/-- C4 amended witness: the spec scenario — 10 MiB requested with 2 MiB
granularity rounds to exactly 10 MiB on the large-page path, `s` itself is
passed to the Windows fallback after the large-page `VirtualAlloc` fails,
and the Linux path also allocates exactly 10 MiB. -/
theorem rounded_size_per_platform_witness :
    (Event.osAlignedAlloc (unixAlignment true) (unixRoundedSize true 10485760)
        ∈ (aligned_large_pages_alloc_unix true true
            AlignedBackend.posixMemalign alignedOSzero 10485760).2 ∧
      unixRoundedSize true 10485760 =
        (10485760 + unixAlignment true - 1) / unixAlignment true *
          unixAlignment true ∧
      10485760 ≤ unixRoundedSize true 10485760) ∧
    ((10485760 : Nat) = (10485760 + 2 ^ 21 - 1) / 2 ^ 21 * 2 ^ 21 ∧
      (10485760 : Nat) ≤ 10485760) ∧
    Event.virtualAllocRegular 10485760 ∈
      (aligned_large_pages_alloc_win true winOSlargeAllocFails 10485760).2 :=
  rounded_size_per_platform true true AlignedBackend.posixMemalign
    alignedOSzero winOSlargeAllocFails true 10485760 10485760 21 rfl
    (by norm_num) (by norm_num) (by norm_num [unixAlignment]) (by decide) rfl

end Pikafish.Misc
